import Mathlib

/-!
Shallow embedding of `dbtools/table.py` (class `Table`, a frame-like
interface to a SQLite table), together with a model of the external
pieces the module calls into: the `sql_execute` primitive of
`dbtools/util.py` and the SQLite engine behind it.

Conventions of the embedding:
* Python values that can live in a table cell are `Value`
  (REAL is modelled by `ℚ`; every REAL literal appearing in the claims,
  such as 66.25, is exactly representable in binary floating point, so
  rational arithmetic agrees with the engine).
* Methods that in Python mutate no attribute and only send SQL are
  embedded as functions returning the (unchanged) handle state together
  with the statements they execute.
* Fallible Python code (raising `ValueError`) returns `Except Err`.
-/

namespace DBTools

/-- A SQL storage value (NULL / INTEGER / REAL / TEXT). -/
inductive Value where
  | null
  | int (n : Int)
  | real (q : ℚ)
  | text (s : String)
deriving DecidableEq

/-- The Python runtime types accepted by `Table.create` as column dtypes
(`None`, `int`, `long`, `float`, `str`, `unicode`, `buffer`, anything else). -/
inductive PyType where
  | pynone
  | pyint
  | pylong
  | pyfloat
  | pystr
  | pyunicode
  | pybuffer
  | pyother (s : String)
deriving DecidableEq

/-- The `ValueError`s raised by `table.py`, named after the spec taxonomy,
plus the opaque EngineError the spec's taxonomy passes through unchanged
from the underlying database engine for any SQL execution failure. -/
inductive Err where
  | invalidType (dtype : String)
  | invalidPrimaryKey (label : String)
  | multiplePrimaryKeys
  | multipleAutoincrement
  | pkAutoincrementMismatch
  | columnCountMismatch (expected got : Nat)
  | noPrimaryKey
  | unsupportedStep
  | invalidKey
  | invalidArgument
  | engineError
deriving DecidableEq

/- ---------- character-level helpers for the string scanning the source does ---------- -/

/-- Python `x.split(" ")[0]`: the characters before the first space. -/
def takeBeforeSpace : List Char → List Char
  | [] => []
  | c :: cs => if c = ' ' then [] else c :: takeBeforeSpace cs

/-- Python `x.split(" ", 1)[1]`: the characters after the first space.
(When `x` holds no space Python raises `IndexError`; the claims never
exercise that input, and this embedding returns `""` there.) -/
def afterFirstSpace : List Char → List Char
  | [] => []
  | c :: cs => if c = ' ' then cs else afterFirstSpace cs

def isPrefixChars : List Char → List Char → Bool
  | [], _ => true
  | _ :: _, [] => false
  | a :: as, b :: bs => a == b && isPrefixChars as bs

def containsChars (n : List Char) : List Char → Bool
  | [] => isPrefixChars n []
  | b :: bs => isPrefixChars n (b :: bs) || containsChars n bs

/-- Python `hay.find(needle) > -1`: substring containment test. -/
def containsStr (needle hay : String) : Bool :=
  containsChars needle.data hay.data

/-- Column name of a column-definition clause: `x.split(" ")[0]`. -/
def colName (d : String) : String := ⟨takeBeforeSpace d.data⟩

/-- Remainder of a column-definition clause: `x.split(" ", 1)[1]`. -/
def splitRest (d : String) : String := ⟨afterFirstSpace d.data⟩

/- ---------- the table handle (the attributes `Table.__init__` assigns) ---------- -/

structure Table where
  db : String
  name : String
  verbose : Bool
  repr : String
  columns : List String
  primary_key : Option String
  autoincrement : Bool
deriving DecidableEq

/- ---------- data model of the engine-side state ---------- -/

/-- Modelled from the spec: the persistent state of one table inside the
single-file database engine — the column-definition clauses the engine's
catalog stores for the table (`sqlite_master`), and the stored rows, each
aligned with the column order.  (`dbtools/util.py`, which holds the
`sql_execute` primitive that talks to the engine, is not under `src/`.) -/
structure TableState where
  coldefs : List String
  rows : List (List Value)
deriving DecidableEq

/- ---------- Table.create (source lines 106-137): dtype → affinity, coldef text ---------- -/

/-- The dtype-to-affinity dispatch of `Table.create` (source lines 108-121). -/
def sqltypeOf : PyType → Except Err String
  | .pynone => .ok "NULL"
  | .pyint => .ok "INTEGER"
  | .pylong => .ok "INTEGER"
  | .pyfloat => .ok "REAL"
  | .pystr => .ok "TEXT"
  | .pyunicode => .ok "TEXT"
  | .pybuffer => .ok "BLOB"
  | .pyother s => .error (.invalidType s)

/-- One column-definition clause of the CREATE TABLE statement
(source lines 108-133): `"label SQLTYPE"`, with ` PRIMARY KEY` (and
` AUTOINCREMENT` when requested) appended on the primary-key column,
which must have INTEGER affinity. -/
def mkColdef (primary_key : Option String) (autoincrement : Bool)
    (label : String) (dtype : PyType) : Except Err String :=
  match sqltypeOf dtype with
  | .error e => .error e
  | .ok sqltype =>
    if primary_key = some label then
      if sqltype ≠ "INTEGER" then .error (.invalidPrimaryKey label)
      else .ok (label ++ " " ++ sqltype ++ " PRIMARY KEY" ++
                (if autoincrement then " AUTOINCREMENT" else ""))
    else .ok (label ++ " " ++ sqltype)

/-- The column-definition clauses of the CREATE TABLE statement, in
declaration order (the loop of source lines 108-133). -/
def createColdefs (primary_key : Option String) (autoincrement : Bool) :
    List (String × PyType) → Except Err (List String)
  | [] => .ok []
  | d :: ds =>
    match mkColdef primary_key autoincrement d.1 d.2 with
    | .error e => .error e
    | .ok a =>
      match createColdefs primary_key autoincrement ds with
      | .error e => .error e
      | .ok rest => .ok (a :: rest)

/- ---------- Table.__init__ (source lines 148-206): schema introspection ---------- -/

/-- Indices of the column definitions whose remainder holds a
`PRIMARY KEY` marker (source line 186, `np.nonzero(pk)[0]`). -/
def pkIdxs (cols : List String) : List Nat :=
  (cols.enum.filter (fun p => containsStr "PRIMARY KEY" (splitRest p.2))).map Prod.fst

/-- Indices of the column definitions whose remainder holds an
`AUTOINCREMENT` marker (source line 196). -/
def aiIdxs (cols : List String) : List Nat :=
  (cols.enum.filter (fun p => containsStr "AUTOINCREMENT" (splitRest p.2))).map Prod.fst

/-- The autoincrement part of `Table.__init__` (source lines 195-206). -/
def initAI (columns : List String) (primary_key : Option String)
    (cols : List String) : Except Err Bool :=
  match aiIdxs cols, primary_key with
  | _ :: _ :: _, _ => .error .multipleAutoincrement
  | [i], some pk =>
    if pk ≠ columns.getD i "" then .error .pkAutoincrementMismatch else .ok true
  | _, _ => .ok false

/-- The repr string `"name(arg1, arg2, ...)"` computed at source line 179. -/
def reprOf (name : String) (cols : List String) : String :=
  name ++ "(" ++ String.intercalate ", " cols ++ ")"

/-- `Table.__init__` (source lines 148-206).  Its input here is the list
of column-definition clauses, i.e. the result of splitting on `", "` the
parenthesised part of the CREATE TABLE text stored in the catalog. -/
def tableInit (db name : String) (verbose : Bool) (cols : List String) :
    Except Err Table :=
  let columns := cols.map colName
  match pkIdxs cols with
  | _ :: _ :: _ => .error .multiplePrimaryKeys
  | [j] =>
    match initAI columns (some (columns.getD j "")) cols with
    | .error e => .error e
    | .ok ai =>
      .ok ⟨db, name, verbose, reprOf name cols, columns, some (columns.getD j ""), ai⟩
  | [] =>
    match initAI columns none cols with
    | .error e => .error e
    | .ok ai => .ok ⟨db, name, verbose, reprOf name cols, columns, none, ai⟩

/- ---------- the engine semantics (modelled from the spec) ---------- -/

/-- Modelled from the spec: a column declared `INTEGER PRIMARY KEY` is the
engine's rowid alias, filled automatically on INSERT when not supplied. -/
def rowidAlias (d : String) : Bool :=
  containsStr "INTEGER PRIMARY KEY" d

def intCell : Value → Int
  | .int n => n
  | _ => 0

/-- Modelled from the spec: the key the engine assigns to the next
auto-filled row of the column at position `i` — one more than the largest
stored key (starting at 1 on an empty table). -/
def nextRowid (st : TableState) (i : Nat) : Int :=
  (st.rows.foldl (fun m r => max m (intCell (r.getD i .null))) 0) + 1

/-- Modelled from the spec: executing
`INSERT INTO t(cols) VALUES (?, ...)` with bound values `vals`.  An empty
column list, `INSERT INTO t() VALUES ()`, is a syntax error the engine
reports (the spec taxonomy's opaque EngineError passthrough).  Otherwise
each table column takes the supplied value when named in `cols` — except
that binding NULL to the INTEGER PRIMARY KEY makes the engine auto-assign
the next rowid — the next rowid when it is the unnamed INTEGER PRIMARY
KEY, and NULL otherwise. -/
def engineInsert (st : TableState) (cols : List String) (vals : List Value) :
    Except Err TableState :=
  if cols.isEmpty then .error .engineError
  else
    let newRow := st.coldefs.enum.map (fun p =>
      match cols.findIdx? (fun c => c == colName p.2) with
      | some j =>
        let v := vals.getD j .null
        if rowidAlias p.2 ∧ v = Value.null then .int (nextRowid st p.1) else v
      | none => if rowidAlias p.2 then .int (nextRowid st p.1) else .null)
    .ok ⟨st.coldefs, st.rows ++ [newRow]⟩

/-- The value a stored row holds in the column named `c`. -/
def cellAt (st : TableState) (row : List Value) (c : String) : Value :=
  match (st.coldefs.map colName).findIdx? (fun n => n == c) with
  | some i => row.getD i .null
  | none => .null

/-- Modelled from the spec: SQL `<` on the integer keys the claims compare. -/
def valLtInt : Value → Value → Bool
  | .int a, .int b => a < b
  | _, _ => false

/-- Modelled from the spec: SQL `>=` on the integer keys the claims compare. -/
def valGeInt : Value → Value → Bool
  | .int a, .int b => b ≤ a
  | _, _ => false

/-- The conditionals `table.py` interpolates into its WHERE clauses: a raw
user predicate (never interpreted by the claims), and the shapes
`"col=?"`, `"col<?"`, `"col>=?"`, `"col<? AND col>=?"` built by
`__getitem__` (source lines 432, 446-453). -/
inductive CondExpr where
  | raw (s : String)
  | eq (col : String)
  | lt (col : String)
  | ge (col : String)
  | ltAndGe (colLt colGe : String)
deriving DecidableEq

/-- Modelled from the spec: whether a stored row satisfies the WHERE
clause (`none` means no WHERE clause: every row matches).  The argument
list carries the values bound to the question marks, in order. -/
def rowMatches (st : TableState) (row : List Value) :
    Option CondExpr → List Value → Bool
  | none, _ => true
  | some (.eq c), [v] => cellAt st row c == v
  | some (.lt c), [v] => valLtInt (cellAt st row c) v
  | some (.ge c), [v] => valGeInt (cellAt st row c) v
  | some (.ltAndGe c d), [v₁, v₂] =>
    valLtInt (cellAt st row c) v₁ && valGeInt (cellAt st row d) v₂
  | _, _ => false

/-- Modelled from the spec: executing `SELECT cols FROM t WHERE cond`,
returning the matching rows projected to `cols` in the requested order. -/
def engineSelect (st : TableState) (cols : List String)
    (cond : Option CondExpr) (args : List Value) : List (List Value) :=
  (st.rows.filter (fun r => rowMatches st r cond args)).map
    (fun r => cols.map (fun cn => cellAt st r cn))

/-- Modelled from the spec: executing `DELETE FROM t WHERE cond`; with no
WHERE clause every row matches and is removed. -/
def engineDelete (st : TableState) (cond : Option CondExpr) (args : List Value) :
    TableState :=
  ⟨st.coldefs, st.rows.filter (fun r => !(rowMatches st r cond args))⟩

/- ---------- Table._where (source lines 208-251) ---------- -/

/-- The shapes the `where` argument of select/update/delete can take:
a bare conditional, or a `(conditional, argument)` pair whose second
member is a single value or a tuple of values. -/
inductive Where where
  | bare (c : CondExpr)
  | withArg (c : CondExpr) (v : Value)
  | withArgs (c : CondExpr) (vs : List Value)
deriving DecidableEq

/-- `Table._where` (source lines 208-251): normalizes the optional filter
into the conditional for the WHERE clause (`none` = no WHERE clause) plus
the flat list of bound arguments. -/
def whereNorm : Option Where → Option CondExpr × List Value
  | none => (none, [])
  | some (.bare c) => (some c, [])
  | some (.withArg c v) => (some c, [v])
  | some (.withArgs c vs) => (some c, vs)

/- ---------- Table.select (source lines 332-397) ---------- -/

/-- The `columns` argument of `Table.select`: absent, a single name, or a
list of names. -/
inductive SelCols where
  | all
  | one (c : String)
  | many (cs : List String)
deriving DecidableEq

/-- The shaped query result (the pandas DataFrame of source lines
388-395): the fetched column names in order, the designated index column
if any, and the fetched records aligned with `cols`. -/
structure Frame where
  cols : List String
  index : Option String
  records : List (List Value)
deriving DecidableEq

/-- `Table.select` (source lines 332-397): resolve the column list, add
the primary key in front when missing so it can index the result, run the
SELECT, and designate the primary key as index when fetched. -/
def Table.select (t : Table) (st : TableState) (columns : SelCols)
    (w : Option Where) : Frame :=
  let cols := match columns with
    | .all => t.columns
    | .one c => [c]
    | .many cs => cs
  let cols := match t.primary_key with
    | some pk => if pk ∈ cols then cols else pk :: cols
    | none => cols
  let n := whereNorm w
  let rows := engineSelect st cols n.1 n.2
  let index := match t.primary_key with
    | some pk => if pk ∈ cols then some pk else none
    | none => none
  ⟨cols, index, rows⟩

/- ---------- Table.__getitem__ (source lines 399-467) ---------- -/

/-- The key shapes `__getitem__` dispatches on: an integer, a slice, a
column name, or a sequence of column names. -/
inductive Key where
  | int (k : Int)
  | slice (start stop step : Option Int)
  | str (c : String)
  | strs (cs : List String)
deriving DecidableEq

/-- `Table.__getitem__` (source lines 399-467). -/
def Table.getitem (t : Table) (st : TableState) : Key → Except Err Frame
  | .int k =>
    match t.primary_key with
    | none => .error .noPrimaryKey
    | some pk => .ok (t.select st .all (some (.withArg (.eq pk) (.int k))))
  | .slice start stop step =>
    if start = none ∧ stop = none ∧ (step = none ∨ step = some 1) then
      .ok (t.select st .all none)
    else
      match t.primary_key with
      | none => .error .noPrimaryKey
      | some pk =>
        if ¬(step = none ∨ step = some 1) then .error .unsupportedStep
        else match start, stop with
          | none, stop' =>
            .ok (t.select st .all (some (.withArg (.lt pk) (.int (stop'.getD 0)))))
          | some a, none =>
            .ok (t.select st .all (some (.withArg (.ge pk) (.int a))))
          | some a, some b =>
            .ok (t.select st .all
                  (some (.withArgs (.ltAndGe pk pk) [.int b, .int a])))
  | .str c => .ok (t.select st (.one c) none)
  | .strs cs => .ok (t.select st (.many cs) none)

/- ---------- Table.insert (source lines 265-330) ---------- -/

/-- One row supplied to `insert`: an ordered sequence of values, or a
mapping from column names to values. -/
inductive Row where
  | seq (vs : List Value)
  | map (kvs : List (String × Value))
deriving DecidableEq

/-- The shapes of the `values` argument of `insert`: absent, a bare
scalar, a single row, or a list of rows. -/
inductive InsertArg where
  | noneArg
  | scalar (v : Value)
  | row (r : Row)
  | rows (rs : List Row)
deriving DecidableEq

/-- Python `len` of a supplied row (`len` of a mapping is its number of
keys). -/
def rowLen : Row → Nat
  | .seq vs => vs.length
  | .map kvs => kvs.length

/-- Python `vals.get(key, None)` on a mapping row. -/
def lookupVal (kvs : List (String × Value)) (c : String) : Value :=
  match kvs.find? (fun p => p.1 == c) with
  | some p => p.2
  | none => .null

/-- The argument normalization of `insert` (source lines 286-296):
absent values become a single empty mapping; a single row is encased in a
list; a scalar — including, in Python 2, a bare string — fails, as does
an empty list (Python raises on `values[0]`). -/
def normRows : InsertArg → Except Err (List Row)
  | .noneArg => .ok [Row.map []]
  | .scalar _ => .error .invalidArgument
  | .row r => .ok [r]
  | .rows [] => .error .invalidArgument
  | .rows (r :: rs) => .ok (r :: rs)

/-- The column list resolution of `insert` (source lines 298-302): the
primary key is removed exactly when the first supplied row has length one
less than the declared column count and a primary key exists. -/
def insertCols (t : Table) (r0 : Row) : List String :=
  match t.primary_key with
  | some p =>
    if (rowLen r0 : Int) = (t.columns.length : Int) - 1
    then t.columns.erase p else t.columns
  | none => t.columns

/-- One entry of the INSERT (source lines 307-319): a mapping row binds
`vals.get(key, None)` for each resolved column; a sequence row must have
exactly the resolved column count. -/
def mkEntry (cols : List String) (ncol : Nat) : Row → Except Err (List Value)
  | .map kvs => .ok (cols.map (fun c => lookupVal kvs c))
  | .seq vs =>
    if vs.length ≠ ncol then .error (.columnCountMismatch ncol vs.length)
    else .ok vs

/-- All entries, extracted before any INSERT executes (the loop of source
lines 306-319). -/
def mkEntries (cols : List String) (ncol : Nat) : List Row → Except Err (List (List Value))
  | [] => .ok []
  | r :: rs =>
    match mkEntry cols ncol r with
    | .error e => .error e
    | .ok e =>
      match mkEntries cols ncol rs with
      | .error e => .error e
      | .ok es => .ok (e :: es)

/-- The text and bindings of one executed INSERT statement:
`INSERT INTO table(cols) VALUES (?, ...)` with `vals` bound. -/
structure SqlInsert where
  table : String
  cols : List String
  vals : List Value
deriving DecidableEq

/-- The insertion loop of source lines 327-330: execute one INSERT per
entry, stopping at the first engine error (each `sql_execute` call is
synchronous, and an engine failure propagates to the caller). -/
def execInserts (cols : List String) : TableState → List (List Value) →
    Except Err TableState
  | st, [] => .ok st
  | st, e :: es =>
    match engineInsert st cols e with
    | .error err => .error err
    | .ok st2 => execInserts cols st2 es

/-- `Table.insert` (source lines 265-330): normalize the argument,
resolve the column list from the first row, extract every entry, then
execute one INSERT per entry.  Returns the engine state after the
insertions and the list of executed INSERT statements. -/
def Table.insert (t : Table) (st : TableState) (arg : InsertArg) :
    Except Err (TableState × List SqlInsert) :=
  match normRows arg with
  | .error e => .error e
  | .ok [] => .error .invalidArgument
  | .ok (r0 :: rs) =>
    let cols := insertCols t r0
    match mkEntries cols cols.length (r0 :: rs) with
    | .error e => .error e
    | .ok entries =>
      match execInserts cols st entries with
      | .error e => .error e
      | .ok st2 => .ok (st2, entries.map (fun e => SqlInsert.mk t.name cols e))

/- ---------- Table.delete (source lines 510-542) ---------- -/

/-- The text and bindings of one executed DELETE statement. -/
structure SqlDelete where
  table : String
  cond : Option CondExpr
  args : List Value
deriving DecidableEq

/-- `Table.delete` (source lines 510-542): build
`DELETE FROM t` plus the normalized filter and execute it. -/
def Table.delete (t : Table) (st : TableState) (w : Option Where) :
    TableState × SqlDelete :=
  let n := whereNorm w
  (engineDelete st n.1 n.2, ⟨t.name, n.1, n.2⟩)

/- ---------- Table.drop (source lines 253-263) ---------- -/

/-- `Table.drop`: sends `DROP TABLE name` and assigns no attribute; the
embedding returns the handle after the call with the executed statement. -/
def Table.drop (t : Table) : Table × List String :=
  (t, ["DROP TABLE " ++ t.name])

/- ---------- Table.create (source lines 50-146, list-of-dtypes branch) ---------- -/

/-- `Table.create` on a fresh database with a list of dtype pairs
(the non-DataFrame branch): emit the CREATE TABLE statement — here, the
coldef clauses the catalog will store, yielding the fresh engine state —
then construct the handle by introspection. -/
def Table.create (db name : String) (dtypes : List (String × PyType))
    (primary_key : Option String) (autoincrement : Bool) :
    Except Err (Table × TableState) :=
  match createColdefs primary_key autoincrement dtypes with
  | .error e => .error e
  | .ok coldefs =>
    match tableInit db name false coldefs with
    | .error e => .error e
    | .ok t => .ok (t, ⟨coldefs, []⟩)

/- ---------- Table.exists (source lines 14-48) ---------- -/

/-- `Table.exists` (source lines 14-48).  Modelled from the spec:
`sql_execute` fetching `SELECT name FROM sqlite_master` yields the list
of catalog table names, here a parameter; the second component counts the
queries sent to the engine.  When the database file does not exist the
method returns `False` before any query. -/
def tableExists (fileExists : Bool) (catalog : List String) (name : String) :
    Bool × Nat :=
  if !fileExists then (false, 0)
  else (catalog.any (fun tn => name == tn), 1)

/- ---------- derived notions used to state the claims ---------- -/

/-- The column list `select` fetches when asked for all columns of a table
whose primary key is `p` (source lines 362-374): the primary key is
prepended when not already among the columns. -/
def selCols (t : Table) (p : String) : List String :=
  if p ∈ t.columns then t.columns else p :: t.columns

/-- Membership of an integer key in the half-open range `[start, stop)`,
either bound optional. -/
def inRange (v : Value) (start stop : Option Int) : Bool :=
  (match start with | none => true | some a => valGeInt v (.int a)) &&
  (match stop with | none => true | some b => valLtInt v (.int b))

/-- Whether a create call failed with an InvalidPrimaryKey error. -/
def isInvalidPkErr : Except Err (List String) → Bool
  | .error (.invalidPrimaryKey _) => true
  | _ => false

/- ---------- concrete fixtures used by the scenario, counterexamples and witnesses ---------- -/

/-- The dtypes of the spec scenario: Foo(id int, name str, age int,
height float). -/
def fooDtypes : List (String × PyType) :=
  [("id", .pyint), ("name", .pystr), ("age", .pyint), ("height", .pyfloat)]

/-- The spec scenario: create Foo with primary key id and autoincrement on
a fresh database, insert the single sequence `["Alyssa", 25, 66.25]`, then
select with no arguments. -/
def c1run : Except Err Frame :=
  match Table.create "test.db" "Foo" fooDtypes (some "id") true with
  | .error e => .error e
  | .ok (t, st) =>
    match t.insert st (.row (.seq [.text "Alyssa", .int 25, .real (265/4)])) with
    | .error e => .error e
    | .ok (st2, _) => .ok (t.select st2 .all none)

/-- A handle whose primary key is not autoincrementing. -/
def exTable : Table :=
  ⟨"db", "T", false, "T(id INTEGER PRIMARY KEY, name TEXT)",
   ["id", "name"], some "id", false⟩

/-- Engine state for `exTable` holding three rows with keys 1, 2, 3. -/
def exState : TableState :=
  ⟨["id INTEGER PRIMARY KEY", "name TEXT"],
   [[.int 1, .text "a"], [.int 2, .text "b"], [.int 3, .text "c"]]⟩

/-- A handle with an autoincrementing primary key and one data column. -/
def insTable : Table :=
  ⟨"db", "T", false, "T(id INTEGER PRIMARY KEY AUTOINCREMENT, name TEXT)",
   ["id", "name"], some "id", true⟩

/-- Empty engine state for `insTable`. -/
def insState : TableState :=
  ⟨["id INTEGER PRIMARY KEY AUTOINCREMENT", "name TEXT"], []⟩

/-- A handle whose only column is its primary key. -/
def onePkTable : Table :=
  ⟨"db", "T1", false, "T1(id INTEGER PRIMARY KEY)", ["id"], some "id", false⟩

/-- Empty engine state for `onePkTable`. -/
def onePkState : TableState := ⟨["id INTEGER PRIMARY KEY"], []⟩

/-- A handle with no primary key. -/
def noPkTable : Table :=
  ⟨"db", "B", false, "B(a TEXT, b INTEGER)", ["a", "b"], none, false⟩

/-- Empty engine state for `noPkTable`. -/
def noPkState : TableState := ⟨["a TEXT", "b INTEGER"], []⟩

/- ==================== theorems ==================== -/

/-- C1: on a fresh database, creating table Foo with columns
(id int primary key autoincrement, name str, age int, height float),
inserting the single sequence ["Alyssa", 25, 66.25] and then selecting
with no arguments returns exactly one row, indexed by primary key, whose
index value is 1 and whose name, age and height equal "Alyssa", 25 and
66.25. -/
theorem c1_create_insert_select_scenario :
    c1run = .ok ⟨["id", "name", "age", "height"], some "id",
                 [[.int 1, .text "Alyssa", .int 25, .real (265/4)]]⟩ := rfl

/- ---------- helper lemmas ---------- -/

lemma mkEntries_error_shape (cols : List String) (ncol : Nat) (rs : List Row) (e : Err)
    (h : mkEntries cols ncol rs = .error e) : ∃ a b, e = .columnCountMismatch a b := by
  induction rs with
  | nil => simp [mkEntries] at h
  | cons r rs ih =>
    simp only [mkEntries] at h
    cases hr : mkEntry cols ncol r with
    | error e1 =>
      rw [hr] at h
      cases r with
      | map kvs => simp [mkEntry] at hr
      | seq vs =>
        simp only [mkEntry] at hr
        by_cases hl : vs.length ≠ ncol
        · simp [hl] at hr
          cases h
          exact ⟨ncol, vs.length, hr.symm⟩
        · simp [hl] at hr
    | ok e2 =>
      rw [hr] at h
      cases hm : mkEntries cols ncol rs with
      | error e3 => rw [hm] at h; cases h; exact ih hm
      | ok es => rw [hm] at h; cases h

lemma mkEntries_bad_row (cols : List String) (ncol : Nat) (rs : List Row)
    (h : ∃ vs, Row.seq vs ∈ rs ∧ vs.length ≠ ncol) :
    ∃ e, mkEntries cols ncol rs = .error e := by
  induction rs with
  | nil => obtain ⟨vs, hv, _⟩ := h; simp at hv
  | cons r rs ih =>
    obtain ⟨vs, hv, hlen⟩ := h
    rcases List.mem_cons.mp hv with hr | htail
    · subst hr
      simp only [mkEntries, mkEntry]
      rw [if_pos hlen]
      exact ⟨_, rfl⟩
    · simp only [mkEntries]
      cases hr : mkEntry cols ncol r with
      | error e1 => exact ⟨e1, rfl⟩
      | ok e2 =>
        obtain ⟨e3, he3⟩ := ih ⟨vs, htail, hlen⟩
        rw [he3]
        exact ⟨e3, rfl⟩

/-- C2 (amended): on a table with a primary key, the column list used for
every executed INSERT excludes the primary key exactly when the FIRST
supplied row has length equal to the declared column count minus one; and
any supplied sequence row whose length differs from the resolved column
count makes the call fail with a ColumnCountMismatch error. -/
theorem c2_insert_pk_column_list (t : Table) (st : TableState) (p : String)
    (r0 : Row) (rs : List Row)
    (hpk : t.primary_key = some p) (hmem : p ∈ t.columns) (hnd : t.columns.Nodup) :
    ((∃ vs, Row.seq vs ∈ r0 :: rs ∧ vs.length ≠ (insertCols t r0).length) →
      ∃ a b, Table.insert t st (.rows (r0 :: rs)) = .error (.columnCountMismatch a b)) ∧
    (∀ st2 cmds, Table.insert t st (.rows (r0 :: rs)) = .ok (st2, cmds) →
      ∀ cmd ∈ cmds,
        (p ∉ cmd.cols ↔ (rowLen r0 : Int) = (t.columns.length : Int) - 1)) := by
  constructor
  · intro hbad
    obtain ⟨e, he⟩ :=
      mkEntries_bad_row (insertCols t r0) (insertCols t r0).length (r0 :: rs) hbad
    obtain ⟨a, b, rfl⟩ := mkEntries_error_shape _ _ _ _ he
    refine ⟨a, b, ?_⟩
    simp [Table.insert, normRows, he]
  · intro st2 cmds hok cmd hcmd
    simp only [Table.insert, normRows] at hok
    cases hme : mkEntries (insertCols t r0) (insertCols t r0).length (r0 :: rs) with
    | error e => rw [hme] at hok; cases hok
    | ok es =>
      simp only [hme] at hok
      cases hex : execInserts (insertCols t r0) st es with
      | error e2 => rw [hex] at hok; cases hok
      | ok st3 =>
        rw [hex] at hok
        cases hok
        obtain ⟨e, he, rfl⟩ := List.mem_map.mp hcmd
        show p ∉ insertCols t r0 ↔ _
        simp only [insertCols, hpk]
        by_cases hc : (rowLen r0 : Int) = (t.columns.length : Int) - 1
        · simp [hc, hnd.not_mem_erase]
        · simp [hc, hmem]

/-- C2 witness: applying the amended claim to a one-sequence insert on a
two-column table with primary key id — the executed INSERT's column list
["name"] excludes the key because the first row has length 1 = 2 - 1. -/
theorem c2_insert_pk_column_list_witness :
    ("id" ∉ (["name"] : List String)) ↔
      ((rowLen (Row.seq [Value.text "a"]) : Int) = (insTable.columns.length : Int) - 1) :=
  ((c2_insert_pk_column_list insTable insState "id" (Row.seq [Value.text "a"]) []
      rfl (by decide) (by decide)).2
    ⟨insState.coldefs, [[.int 1, .text "a"]]⟩
    [⟨"T", ["name"], [Value.text "a"]⟩] rfl)
    ⟨"T", ["name"], [Value.text "a"]⟩ (by decide)

/-- C2 counterexample: inserting two mapping rows of lengths 1 and 0 into
a table with a primary key succeeds, and both executed INSERT statements
use the column list ["name"], which excludes the primary key — although
not every supplied row has length equal to the declared column count
minus one.  The claim's "if and only if every supplied row ..." is
therefore false; the code looks only at the first row. -/
theorem c2_counterexample :
    Table.insert insTable insState (.rows [.map [("name", .text "x")], .map []]) =
      .ok (⟨insState.coldefs, [[.int 1, .text "x"], [.int 2, .null]]⟩,
           [⟨"T", ["name"], [.text "x"]⟩, ⟨"T", ["name"], [.null]⟩]) ∧
    insTable.primary_key = some "id" ∧
    "id" ∉ (["name"] : List String) ∧
    ¬(∀ r ∈ [Row.map [("name", Value.text "x")], Row.map []],
        (rowLen r : Int) = (insTable.columns.length : Int) - 1) :=
  ⟨rfl, rfl, by decide, by decide⟩

lemma mkColdef_invalidPK (pk label : String) (ai : Bool) (dt : PyType)
    (hv : ∀ s, dt ≠ .pyother s) :
    (∃ l, mkColdef (some pk) ai label dt = .error (.invalidPrimaryKey l)) ↔
      (label = pk ∧ sqltypeOf dt ≠ .ok "INTEGER") := by
  cases dt <;>
    first
      | exact absurd rfl (hv _)
      | (by_cases h : pk = label <;>
          simp [mkColdef, sqltypeOf, h, eq_comm])

lemma mkColdef_ok (pk label : String) (ai : Bool) (dt : PyType)
    (hv : ∀ s, dt ≠ .pyother s)
    (h : ¬(label = pk ∧ sqltypeOf dt ≠ .ok "INTEGER")) :
    ∃ a, mkColdef (some pk) ai label dt = .ok a := by
  cases dt <;>
    first
      | exact absurd rfl (hv _)
      | (by_cases hp : pk = label <;>
          simp_all [mkColdef, sqltypeOf, eq_comm])

/-- C3 (amended): creating a table with a declared primary key fails with
an InvalidPrimaryKey error exactly when some declared column bears the
primary-key name and its storage affinity is not INTEGER — independently
of whether autoincrement is requested (provided every declared type is
valid, since an invalid type fails with InvalidType first). -/
theorem c3_create_invalid_pk (dtypes : List (String × PyType)) (pk : String) (ai : Bool)
    (hvalid : ∀ p ∈ dtypes, ∀ s, p.2 ≠ PyType.pyother s) :
    isInvalidPkErr (createColdefs (some pk) ai dtypes) = true ↔
      ∃ p ∈ dtypes, p.1 = pk ∧ sqltypeOf p.2 ≠ .ok "INTEGER" := by
  induction dtypes with
  | nil => simp [createColdefs, isInvalidPkErr]
  | cons d ds ih =>
    have hvd : ∀ s, d.2 ≠ PyType.pyother s := hvalid d (List.mem_cons_self d ds)
    have hvds : ∀ p ∈ ds, ∀ s, p.2 ≠ PyType.pyother s :=
      fun p hp => hvalid p (List.mem_cons_of_mem d hp)
    by_cases hd : d.1 = pk ∧ sqltypeOf d.2 ≠ .ok "INTEGER"
    · obtain ⟨l, hl⟩ := (mkColdef_invalidPK pk d.1 ai d.2 hvd).mpr hd
      simp only [createColdefs, hl]
      simp [isInvalidPkErr]
      exact Or.inl hd
    · obtain ⟨a, ha⟩ := mkColdef_ok pk d.1 ai d.2 hvd hd
      simp only [createColdefs, ha]
      cases hds : createColdefs (some pk) ai ds with
      | error e =>
        rw [hds] at ih
        simp only [List.mem_cons]
        constructor
        · intro hh
          obtain ⟨p, hp, hp2⟩ := (ih hvds).mp hh
          exact ⟨p, Or.inr hp, hp2⟩
        · rintro ⟨p, hp | hp, hp2⟩
          · exact absurd (hp ▸ hp2) hd
          · exact (ih hvds).mpr ⟨p, hp, hp2⟩
      | ok rest =>
        rw [hds] at ih
        simp only [isInvalidPkErr, List.mem_cons]
        constructor
        · intro hh; simp [isInvalidPkErr] at hh
        · rintro ⟨p, hp | hp, hp2⟩
          · exact absurd (hp ▸ hp2) hd
          · have := (ih hvds).mpr ⟨p, hp, hp2⟩
            simp [isInvalidPkErr] at this

/-- C3 witness: the amended claim applied to a single TEXT column declared
as primary key with autoincrement NOT requested — creation still fails
with InvalidPrimaryKey. -/
theorem c3_create_invalid_pk_witness :
    isInvalidPkErr (createColdefs (some "name") false [("name", PyType.pystr)]) = true :=
  (c3_create_invalid_pk [("name", PyType.pystr)] "name" false (by simp)).mpr
    ⟨("name", PyType.pystr), by simp, rfl, by simp [sqltypeOf]⟩

/-- C3 counterexample: a table whose primary key column has TEXT affinity
raises InvalidPrimaryKey even though autoincrement is not requested —
refuting the claim that no error is raised in that case. -/
theorem c3_counterexample :
    createColdefs (some "name") false [("name", PyType.pystr)] =
      .error (.invalidPrimaryKey "name") := rfl

lemma select_all_pk (t : Table) (st : TableState) (p : String) (w : Option Where)
    (hpk : t.primary_key = some p) :
    t.select st .all w =
      ⟨selCols t p, some p,
       engineSelect st (selCols t p) (whereNorm w).1 (whereNorm w).2⟩ := by
  simp only [Table.select, selCols, hpk]
  by_cases hm : p ∈ t.columns <;> simp [hm]

/-- C4 (amended): indexed access with an integer key k raises the
NoPrimaryKey error exactly when the table has no primary key at all;
whenever a primary key exists — autoincrementing or not — it returns the
rows whose primary key equals k. -/
theorem c4_getitem_int (t : Table) (st : TableState) (k : Int) :
    (t.primary_key = none → t.getitem st (.int k) = .error .noPrimaryKey) ∧
    (∀ p, t.primary_key = some p →
      t.getitem st (.int k) =
        .ok ⟨selCols t p, some p,
             (st.rows.filter (fun r => cellAt st r p == Value.int k)).map
               (fun r => (selCols t p).map (fun cn => cellAt st r cn))⟩) := by
  constructor
  · intro h; simp [Table.getitem, h]
  · intro p hp
    simp only [Table.getitem, hp, select_all_pk t st p _ hp]
    rfl

/-- C4 witness: integer access at key 1 on a concrete three-row table. -/
theorem c4_getitem_int_witness :
    exTable.getitem exState (.int 1) =
      .ok ⟨selCols exTable "id", some "id",
           (exState.rows.filter (fun r => cellAt exState r "id" == Value.int 1)).map
             (fun r => (selCols exTable "id").map (fun cn => cellAt exState r cn))⟩ :=
  (c4_getitem_int exTable exState 1).2 "id" rfl

/-- C4 counterexample: on a table whose primary key is NOT
autoincrementing, integer access raises no error and returns the matching
row — refuting the claim that NoPrimaryKey is raised whenever the table
lacks an autoincrementing primary key. -/
theorem c4_counterexample :
    exTable.autoincrement = false ∧
    exTable.primary_key = some "id" ∧
    exTable.getitem exState (.int 1) =
      .ok ⟨["id", "name"], some "id", [[.int 1, .text "a"]]⟩ :=
  ⟨rfl, rfl, rfl⟩

/-- C5: on a handle with a primary key, slice access with default step
(absent or 1) returns exactly the rows whose primary key lies in
[start, stop), an omitted bound meaning unbounded; a slice whose step is
neither absent nor 1 fails with the UnsupportedStep error. -/
theorem c5_getitem_slice (t : Table) (st : TableState) (p : String)
    (start stop step : Option Int) (hpk : t.primary_key = some p) :
    ((step ≠ none ∧ step ≠ some 1) →
      t.getitem st (.slice start stop step) = .error .unsupportedStep) ∧
    ((step = none ∨ step = some 1) →
      t.getitem st (.slice start stop step) =
        .ok ⟨selCols t p, some p,
             (st.rows.filter (fun r => inRange (cellAt st r p) start stop)).map
               (fun r => (selCols t p).map (fun cn => cellAt st r cn))⟩) := by
  constructor
  · rintro ⟨h1, h2⟩
    simp [Table.getitem, hpk, h1, h2]
  · intro hs
    rcases hs with rfl | rfl <;>
      cases start <;> cases stop <;>
        simp only [Table.getitem, hpk, select_all_pk t st p _ hpk] <;>
        simp [engineSelect, whereNorm, rowMatches, inRange, Bool.and_comm]

/-- C5 witness: the slice [1, 3) with default step on a concrete
three-row table. -/
theorem c5_getitem_slice_witness :
    exTable.getitem exState (.slice (some 1) (some 3) none) =
      .ok ⟨selCols exTable "id", some "id",
           (exState.rows.filter
              (fun r => inRange (cellAt exState r "id") (some 1) (some 3))).map
             (fun r => (selCols exTable "id").map (fun cn => cellAt exState r cn))⟩ :=
  (c5_getitem_slice exTable exState "id" (some 1) (some 3) none rfl).2 (Or.inl rfl)

lemma initAI_mismatch (columns : List String) (pk : String) (cols : List String) (i : Nat)
    (hai : aiIdxs cols = [i]) (hne : pk ≠ columns.getD i "") :
    initAI columns (some pk) cols = .error .pkAutoincrementMismatch := by
  unfold initAI
  rw [hai]
  exact if_pos hne

lemma initAI_same (columns : List String) (pk : String) (cols : List String) (i : Nat)
    (hai : aiIdxs cols = [i]) (heq : pk = columns.getD i "") :
    initAI columns (some pk) cols = .ok true := by
  unfold initAI
  rw [hai]
  exact if_neg (not_not_intro heq)

/-- C6 (amended): when introspection finds exactly one AUTOINCREMENT
marker, construction fails with the PrimaryKeyAutoincrementMismatch error
exactly when a PRIMARY KEY marker exists on a DIFFERENT column: with the
marker on the primary-key column itself, construction succeeds with the
autoincrement flag true, and when no column carries a PRIMARY KEY marker
it succeeds with the autoincrement flag false. -/
theorem c6_init_autoincrement_scan (db name : String) (vb : Bool)
    (cols : List String) (i : Nat) (hai : aiIdxs cols = [i]) :
    (pkIdxs cols = [] →
      tableInit db name vb cols =
        .ok ⟨db, name, vb, reprOf name cols, cols.map colName, none, false⟩) ∧
    (∀ j, pkIdxs cols = [j] →
      ((cols.map colName).getD j "" ≠ (cols.map colName).getD i "" →
        tableInit db name vb cols = .error .pkAutoincrementMismatch) ∧
      ((cols.map colName).getD j "" = (cols.map colName).getD i "" →
        tableInit db name vb cols =
          .ok ⟨db, name, vb, reprOf name cols, cols.map colName,
               some ((cols.map colName).getD j ""), true⟩)) := by
  constructor
  · intro hpk
    simp only [tableInit]
    rw [hpk]
    simp only [initAI]
    rw [hai]
  · intro j hpk
    constructor
    · intro hne
      have hia :=
        initAI_mismatch (cols.map colName) ((cols.map colName).getD j "") cols i hai hne
      simp only [tableInit]
      rw [hpk]
      simp only [hia]
    · intro heq
      have hia :=
        initAI_same (cols.map colName) ((cols.map colName).getD j "") cols i hai heq
      simp only [tableInit]
      rw [hpk]
      simp only [hia]

/-- C6 witness: a schema whose AUTOINCREMENT marker sits on a column
different from the primary-key column fails with the mismatch error. -/
theorem c6_init_autoincrement_scan_witness :
    tableInit "db" "T" false ["id INTEGER PRIMARY KEY", "x INTEGER AUTOINCREMENT"] =
      .error .pkAutoincrementMismatch :=
  ((c6_init_autoincrement_scan "db" "T" false
      ["id INTEGER PRIMARY KEY", "x INTEGER AUTOINCREMENT"] 1 rfl).2 0 rfl).1 (by decide)

/-- C6 counterexample: a schema with an AUTOINCREMENT marker but no
PRIMARY KEY marker constructs successfully (with the autoincrement flag
false) — refuting the claim that this case fails with the mismatch
error. -/
theorem c6_counterexample :
    tableInit "db" "T" false ["a INTEGER AUTOINCREMENT", "b TEXT"] =
      .ok ⟨"db", "T", false, "T(a INTEGER AUTOINCREMENT, b TEXT)",
           ["a", "b"], none, false⟩ := rfl

/-- C7: delete with no filter issues a DELETE statement with no WHERE
clause and no bound parameters, the resulting engine state holds no rows,
and a subsequent select returns an empty result. -/
theorem c7_delete_all (t : Table) (st : TableState) :
    Table.delete t st none = (⟨st.coldefs, []⟩, ⟨t.name, none, []⟩) ∧
    (t.select ⟨st.coldefs, []⟩ .all none).records = [] := by
  constructor
  · simp [Table.delete, whereNorm, engineDelete, rowMatches]
  · simp [Table.select, engineSelect]

lemma lookupVal_nil (cs : List String) :
    (cs.map fun c => lookupVal [] c) = cs.map fun _ => Value.null := by
  simp [lookupVal]

lemma insert_none_eval (t : Table) (st : TableState) (cs : List String)
    (hcols : insertCols t (Row.map []) = cs) :
    Table.insert t st .noneArg =
      match engineInsert st cs (cs.map fun _ => Value.null) with
      | .error e => .error e
      | .ok st2 => .ok (st2, [⟨t.name, cs, cs.map fun _ => Value.null⟩]) := by
  simp only [Table.insert, normRows, hcols, mkEntries, mkEntry, lookupVal_nil cs,
    execInserts]
  cases hEI : engineInsert st cs (cs.map fun _ => Value.null) <;> simp [hEI]

/-- C8 (amended): insert with no argument normalizes to a single empty
mapping and builds exactly one INSERT naming the resolved column list and
binding NULL for each named column.  On every nonempty-column table that
has no primary key or more than one column, the resolved list is all
columns, so the call succeeds with one INSERT binding NULL for every
column of the table; but on a table whose only column is its primary key,
the key is excluded, the INSERT has an empty column list — a statement
the engine rejects — and the call fails with an engine error. -/
theorem c8_insert_none (t : Table) (st : TableState) :
    ((t.primary_key = none ∨ t.columns.length ≠ 1) → t.columns ≠ [] →
      ∃ st2, engineInsert st t.columns (t.columns.map fun _ => Value.null) = .ok st2 ∧
        Table.insert t st .noneArg =
          .ok (st2, [⟨t.name, t.columns, t.columns.map fun _ => Value.null⟩])) ∧
    (∀ p, t.primary_key = some p → t.columns = [p] →
      Table.insert t st .noneArg = .error .engineError) := by
  constructor
  · intro h hne
    have hcols : insertCols t (Row.map []) = t.columns := by
      rcases h with h | h
      · simp [insertCols, h]
      · cases hp : t.primary_key with
        | none => simp [insertCols, hp]
        | some p =>
          simp only [insertCols, hp, rowLen, List.length_nil]
          rw [if_neg]
          omega
    have heval := insert_none_eval t st t.columns hcols
    cases hcl : t.columns with
    | nil => exact absurd hcl hne
    | cons a as =>
      rw [hcl] at heval
      exact ⟨_, rfl, heval⟩
  · intro p hp hpc
    have hcols : insertCols t (Row.map []) = [] := by
      simp [insertCols, hp, hpc, rowLen]
    exact insert_none_eval t st [] hcols

/-- C8 witness: insert with no argument on a two-column table without a
primary key succeeds with one INSERT binding NULL for both columns. -/
theorem c8_insert_none_witness :
    Table.insert noPkTable noPkState .noneArg =
      .ok (⟨noPkState.coldefs, [[Value.null, Value.null]]⟩,
           [⟨"B", ["a", "b"], [Value.null, Value.null]⟩]) := by
  obtain ⟨st2, hEI, hIns⟩ :=
    (c8_insert_none noPkTable noPkState).1 (Or.inl rfl) (by decide)
  cases Except.ok.inj
    ((rfl : engineInsert noPkState noPkTable.columns
        (noPkTable.columns.map fun _ => Value.null) =
      .ok (⟨noPkState.coldefs, [[Value.null, Value.null]]⟩ : TableState)).symm.trans hEI)
  exact hIns

/-- C8 counterexample: on a table whose only column is its primary key,
insert with no argument resolves an empty column list, so the one built
INSERT is the statement `INSERT INTO T1() VALUES ()`, which the engine
rejects — the call fails with an engine error instead of binding NULL
for the table's column. -/
theorem c8_counterexample :
    Table.insert onePkTable onePkState .noneArg = .error .engineError ∧
    onePkTable.columns = ["id"] ∧
    insertCols onePkTable (Row.map []) = [] :=
  ⟨rfl, rfl, rfl⟩

/-- C9: Table.exists returns False and sends no catalog query whenever
the database file is missing; otherwise it sends one query and returns
True exactly when some catalog table bears exactly the requested name. -/
theorem c9_table_exists (fe : Bool) (cat : List String) (n : String) :
    (fe = false → tableExists fe cat n = (false, 0)) ∧
    (fe = true → ((tableExists fe cat n).1 = true ↔ n ∈ cat) ∧
      (tableExists fe cat n).2 = 1) := by
  constructor
  · intro h; simp [tableExists, h]
  · intro h
    subst h
    constructor
    · simp [tableExists, List.any_eq_true]
    · simp [tableExists]

/-- C9 witness: an existing database whose catalog holds Foo and Bar. -/
theorem c9_table_exists_witness :
    ((tableExists true ["Foo", "Bar"] "Foo").1 = true ↔ "Foo" ∈ ["Foo", "Bar"]) ∧
      (tableExists true ["Foo", "Bar"] "Foo").2 = 1 :=
  (c9_table_exists true ["Foo", "Bar"] "Foo").2 rfl

/-- C10: drop leaves every field of the in-memory handle unchanged —
database path, table name, column list, primary key and autoincrement
flag — and sends exactly one DROP TABLE statement. -/
theorem c10_drop_frame (t : Table) :
    (Table.drop t).1.db = t.db ∧ (Table.drop t).1.name = t.name ∧
    (Table.drop t).1.columns = t.columns ∧
    (Table.drop t).1.primary_key = t.primary_key ∧
    (Table.drop t).1.autoincrement = t.autoincrement ∧
    (Table.drop t).2 = ["DROP TABLE " ++ t.name] :=
  ⟨rfl, rfl, rfl, rfl, rfl, rfl⟩

end DBTools
